import Mathlib

/-!
# Verification of the yt-audio terminal player

A shallow embedding of the yt-audio repository (src/src/extractor.py,
src/src/player.py, src/src/pygame_player.py, src/src/controls.py,
src/src/main.py, src/src/ui.py) together with proofs about it.

Modelling conventions:
* Python strings are `List Char`; Python ints are `Int` (or `Nat` where the
  source value is a count).
* The external playback engines (libVLC, the pygame/SDL mixer) are modelled
  as explicit state records holding exactly what the Python code reads back
  from them, with their real interface behaviour: a volume store, a
  playback-state store, and an initialisation flag for the pygame mixer
  whose music functions require an initialised mixer and raise
  `pygame.error` otherwise.  The pygame music volume is the SDL_mixer
  store, an integer number of 1/128 steps: `set_volume(x)` hands
  Mix_VolumeMusic the integer `int(x * 128)`, which is ignored when
  negative and capped at 128, and `get_volume()` returns the float
  `store / 128.0`.
* The float arithmetic of the volume path is computed exactly in integers;
  for the integer volumes this program passes, every float step either is
  exactly representable or provably truncates to the same integer as the
  exact value (the argument is given at the definitions involved).
* Fallible Python code is embedded in `Except`/`Option`: a raised exception
  is an `Except.error`, a `try/except` that returns a default maps every
  `Except.error` to that default.
-/

set_option maxRecDepth 10000

namespace YtAudio

/-- The player-state strings of the spec's `PlaybackState` enumeration; both
backends' `get_state` return one of these (player.py `state_map`,
pygame_player.py `get_state`). -/
inductive PState
  | idle
  | opening
  | buffering
  | playing
  | paused
  | stopped
  | ended
  | error
deriving DecidableEq, Repr

/-- The dictionary `extract_audio_info` builds on success (extractor.py,
lines 36-42). -/
structure MediaInfo where
  stream_url : Option (List Char)
  title : List Char
  uploader : List Char
  duration : Int
  thumbnail : Option (List Char)
deriving DecidableEq, Repr

/-- What `ydl.extract_info(url, download=False)` hands back on success: the
`info` dictionary, of which the code reads the keys below with `info.get`
(extractor.py, lines 36-42). -/
structure RawInfo where
  url : Option (List Char)
  title : Option (List Char)
  uploader : Option (List Char)
  duration : Option Int
  thumbnail : Option (List Char)
deriving DecidableEq, Repr

/-! ## Stream Resolver (src/src/extractor.py)

`is_valid_youtube_url` runs `re.search` with two patterns:

  pattern 1: `(https?://)?(www\.)?(youtube\.com/watch\?v=|youtu\.be/|youtube\.com/embed/)`
  pattern 2: `(https?://)?(www\.)?youtube\.com/watch\?.*v=`

Because both prefix groups are optional (they may match the empty string)
and `re.search` tries every start position, pattern 1 succeeds exactly when
one of the three alternative literals occurs as a substring of the input,
and pattern 2 succeeds exactly when `youtube.com/watch?` occurs at some
position followed, with no intervening newline (`.` does not match `\n`),
by `v=`.  The definitions below embed that search semantics directly. -/

/-- `matchAt needle hay`: the needle occurs at the very start of the hay
(one candidate position of `re.search`). -/
def matchAt : List Char → List Char → Bool
  | [], _ => true
  | _ :: _, [] => false
  | a :: as, b :: bs => (a == b) && matchAt as bs

/-- `hasSub needle hay`: the needle occurs at some position of the hay
(`re.search` over a pattern that is a plain literal). -/
def hasSub (n : List Char) : List Char → Bool
  | [] => matchAt n []
  | c :: rest => matchAt n (c :: rest) || hasSub n rest

/-- The continuation `.*v=` of pattern 2: some position carries `v=`, and
every character before it can be consumed by `.*`, i.e. is not a newline
(`.` matches every character except `'\n'`). -/
def seekVEq : List Char → Bool
  | [] => false
  | c :: rest => (c == 'v' && matchAt "=".data rest) || (!(c == '\n') && seekVEq rest)

/-- The literal part of pattern 2, `youtube\.com/watch\?`. -/
def watchQ : List Char := "youtube.com/watch?".data

/-- `re.search` of pattern 2: some position where `youtube.com/watch?`
matches and the remainder satisfies `.*v=`. -/
def searchWatchV : List Char → Bool
  | [] => false
  | c :: rest =>
    (matchAt watchQ (c :: rest) && seekVEq ((c :: rest).drop watchQ.length))
      || searchWatchV rest

/-- `YouTubeExtractor.is_valid_youtube_url` (extractor.py, lines 15-25):
true when either `re.search` succeeds. -/
def is_valid_youtube_url (url : List Char) : Bool :=
  (hasSub "youtube.com/watch?v=".data url
      || hasSub "youtu.be/".data url
      || hasSub "youtube.com/embed/".data url)
    || searchWatchV url

/-- The body of the `try` block of `extract_audio_info` (extractor.py,
lines 29-42), before the `except` handler: an invalid URL raises
`ValueError`, a failing `ydl.extract_info` propagates the library's
exception, success builds the info dictionary with the defaults the code
passes to `info.get`.  The outcome of the external `extract_info` call is
the parameter `ydl`. -/
def extract_body (url : List Char) (ydl : Except (List Char) RawInfo) :
    Except (List Char) MediaInfo :=
  if ¬ is_valid_youtube_url url then .error "Invalid YouTube URL".data
  else
    match ydl with
    | .error e => .error e
    | .ok info =>
      .ok { stream_url := info.url
            title := info.title.getD "Unknown".data
            uploader := info.uploader.getD "Unknown".data
            duration := info.duration.getD 0
            thumbnail := info.thumbnail }

/-- `YouTubeExtractor.extract_audio_info` (extractor.py, lines 27-46): the
`except Exception` handler turns every raised error into `None`. -/
def extract_audio_info (url : List Char) (ydl : Except (List Char) RawInfo) :
    Option MediaInfo :=
  match extract_body url ydl with
  | .ok info => some info
  | .error _ => none

/-! Specification-side URL forms, for comparing the code's validity check
against the spec's words. -/

/-- Modelled from the spec: "two accepted forms: canonical watch-page form
and short-link form" — the canonical watch-page form: an optional scheme,
an optional `www.`, then `youtube.com/watch?v=` and the video id. -/
def specCanonicalWatchForm (url : List Char) : Bool :=
  (["".data, "http://".data, "https://".data]).any fun sch =>
    (["".data, "www.".data]).any fun w =>
      matchAt (sch ++ w ++ "youtube.com/watch?v=".data) url

/-- Modelled from the spec: the short-link form: an optional scheme, an
optional `www.`, then `youtu.be/` and the video id. -/
def specShortLinkForm (url : List Char) : Bool :=
  (["".data, "http://".data, "https://".data]).any fun sch =>
    (["".data, "www.".data]).any fun w =>
      matchAt (sch ++ w ++ "youtu.be/".data) url

/-! ## Time formatting (three identical copies in the source)

player.py lines 95-103, pygame_player.py lines 196-204 and ui.py lines
287-295 each define `format_time(ms)`.  Python's `f"{n:02d}"` for `n ≥ 0`
is the decimal digits padded with `0` to width at least two. -/

/-- Python `f"{n:02d}"` for a nonnegative value. -/
def pad2 (n : Nat) : String :=
  if n < 10 then "0" ++ Nat.repr n else Nat.repr n

namespace Vlc

/-- `AudioPlayer.format_time` (player.py, lines 95-103). -/
def format_time (ms : Int) : String :=
  if ms < 0 then "00:00"
  else
    let seconds := ms.toNat / 1000
    let minutes := seconds / 60
    let seconds2 := seconds % 60
    pad2 minutes ++ ":" ++ pad2 seconds2

end Vlc

namespace Pg

/-- `AudioPlayer.format_time` (pygame_player.py, lines 196-204). -/
def format_time (ms : Int) : String :=
  if ms < 0 then "00:00"
  else
    let seconds := ms.toNat / 1000
    let minutes := seconds / 60
    let seconds2 := seconds % 60
    pad2 minutes ++ ":" ++ pad2 seconds2

end Pg

namespace Ui

/-- `PlayerUI.format_time` (ui.py, lines 287-295). -/
def format_time (ms : Int) : String :=
  if ms < 0 then "00:00"
  else
    let seconds := ms.toNat / 1000
    let minutes := seconds / 60
    let seconds2 := seconds % 60
    pad2 minutes ++ ":" ++ pad2 seconds2

end Ui

/-! ## VLC backend (src/src/player.py)

The libVLC engine is modelled as what the wrapper reads back from it: the
volume store written by `audio_set_volume` and read by `audio_get_volume`,
and the playback state read by `get_state` (the `state_map` of lines 71-80
carries each engine state to the same-named string, so the map is the
identity on `PState`); `player.stop()` leaves the engine in the `Stopped`
state. -/

namespace Vlc

/-- The VLC `AudioPlayer`: the engine stores it wraps plus the wrapper's own
`is_playing` flag (player.py, lines 8-14). -/
structure Player where
  engineVolume : Int
  engineState : PState
  is_playing : Bool
deriving DecidableEq, Repr

/-- `AudioPlayer.set_volume` (player.py, lines 60-62):
`audio_set_volume(max(0, min(100, volume)))`. -/
def set_volume (p : Player) (volume : Int) : Player :=
  { p with engineVolume := max 0 (min 100 volume) }

/-- `AudioPlayer.get_volume` (player.py, lines 64-66). -/
def get_volume (p : Player) : Int := p.engineVolume

/-- `AudioPlayer.stop` (player.py, lines 55-58). -/
def stop (p : Player) : Player :=
  { p with engineState := .stopped, is_playing := false }

/-- `AudioPlayer.get_state` (player.py, lines 68-81). -/
def get_state (p : Player) : PState := p.engineState

/-- The state test of `is_stream_ready` (player.py, lines 109-112):
`state not in ['idle', 'opening', 'error']`. -/
def readyState (s : PState) : Bool :=
  !(s == .idle || s == .opening || s == .error)

/-- `AudioPlayer.is_stream_ready` (player.py, lines 109-112). -/
def is_stream_ready (p : Player) : Bool := readyState p.engineState

/-- The polling loop of `wait_for_ready` (player.py, lines 114-121), over
the trace of engine states the successive `get_state` calls observe.  Each
iteration costs one `time.sleep(0.1)`, so after `k` completed sleeps the
loop guard `time.time() - start_time < timeout` reads `k/10 < timeout`,
i.e. `k < 10 * timeout`; `fuel` is the remaining `10 * timeout - k` guard
successes.  Returns the result together with the number of sleeps
performed (one tenth of a second each). -/
def wait_go (ready : Nat → Bool) : Nat → Nat → Bool × Nat
  | k, 0 => (false, k)
  | k, fuel + 1 => if ready k then (true, k) else wait_go ready (k + 1) fuel

/-- `AudioPlayer.wait_for_ready` (player.py, lines 114-121): poll
`is_stream_ready` every 0.1 s until it holds or `timeout` seconds elapsed. -/
def wait_for_ready (st : Nat → PState) (timeout : Nat) : Bool × Nat :=
  wait_go (fun k => readyState (st k)) 0 (10 * timeout)

end Vlc

/-! ## pygame backend (src/src/pygame_player.py)

The pygame mixer is modelled per pygame's interface: `pygame.mixer.init()`
sets the initialised flag, `pygame.mixer.quit()` clears it (and is itself
safe to call at any time), and every `pygame.mixer.music.*` call requires
an initialised mixer and raises `pygame.error` otherwise.
`music.set_volume` clamps its argument into the mixer's valid range
`[0, 1]`; `music.get_volume` returns the stored value. -/

namespace Pg

/-- The one pygame exception the embedding distinguishes: the
`pygame.error` a `pygame.mixer.music` call raises when the mixer is not
initialised. -/
inductive PgError
  | mixerNotInitialized
deriving DecidableEq, Repr

/-- The pygame mixer state the wrapper interacts with; `musicVolume128` is
the SDL_mixer music volume, an integer number of 1/128 steps in
`0..128`. -/
structure Mixer where
  initialized : Bool
  musicVolume128 : Nat
  busy : Bool
deriving DecidableEq, Repr

/-- `pygame.mixer.music.set_volume(x)` for the argument `x = v / 100.0`
that `AudioPlayer.set_volume` passes (v the Python int).  pygame hands
Mix_VolumeMusic the truncation `int(x * 128)`; for an integer `v` this is
exactly `Int.tdiv (v * 128) 100` even in IEEE doubles — `v / 100.0` is
the correctly rounded double `r` with relative error below `2^-52`, the
multiplication by 128 is exact, and `128 * v / 100` can only lie within
`128 * 2^-52 * |v|` of an integer when `25 ∣ v`, in which case `v / 100`
is itself exactly representable.  Mix_VolumeMusic treats a negative
request as a query (the store is unchanged) and caps the store at
MIX_MAX_VOLUME = 128. -/
def musicSetVolumeFrom (m : Mixer) (v : Int) : Except PgError Mixer :=
  if m.initialized then
    if (v * 128).tdiv 100 < 0 then .ok m
    else .ok { m with musicVolume128 := (min ((v * 128).tdiv 100) 128).toNat }
  else .error .mixerNotInitialized

/-- `pygame.mixer.music.get_volume()`: the float `musicVolume128 / 128.0`,
reported here as the integer store itself (the caller performs the
arithmetic; both of its float steps are exact, see `get_volume`). -/
def musicGetVolume (m : Mixer) : Except PgError Nat :=
  if m.initialized then .ok m.musicVolume128
  else .error .mixerNotInitialized

/-- `pygame.mixer.music.stop`. -/
def musicStop (m : Mixer) : Except PgError Mixer :=
  if m.initialized then .ok { m with busy := false }
  else .error .mixerNotInitialized

/-- `pygame.mixer.music.get_busy`. -/
def musicGetBusy (m : Mixer) : Except PgError Bool :=
  if m.initialized then .ok m.busy
  else .error .mixerNotInitialized

/-- `pygame.mixer.quit` (safe whether or not the mixer is initialised). -/
def mixerQuit (m : Mixer) : Mixer := { m with initialized := false }

/-- The pygame `AudioPlayer` (pygame_player.py, lines 10-20): the mixer it
drives plus its own fields. -/
structure Player where
  mixer : Mixer
  current_media_info : Option MediaInfo
  is_playing : Bool
  is_paused : Bool
  temp_file : Option String
deriving DecidableEq, Repr

/-- `AudioPlayer.set_volume` (pygame_player.py, lines 149-151):
`pygame.mixer.music.set_volume(volume / 100.0)` — note no Python-side
clamp or store. -/
def set_volume (p : Player) (volume : Int) : Except PgError Player :=
  (musicSetVolumeFrom p.mixer volume).map fun m => { p with mixer := m }

/-- `AudioPlayer.get_volume` (pygame_player.py, lines 153-155):
`int(pygame.mixer.music.get_volume() * 100)`.  With the store at `m`
steps, `get_volume()` is the double `m / 128.0` (exact: the denominator
is a power of two) and the multiplication by 100 yields `m * 100 / 128`,
again exact (`m * 100 ≤ 12800`, a 14-bit numerator over a power-of-two
denominator), so the truncation is exactly `m * 100 / 128` in `Nat`. -/
def get_volume (p : Player) : Except PgError Int :=
  (musicGetVolume p.mixer).map fun m => ((m * 100 / 128 : Nat) : Int)

/-- `AudioPlayer.stop` (pygame_player.py, lines 136-147): stop the music,
clear the flags, and delete the temporary file when it exists (the
filesystem is the list `fs` of existing paths; `os.unlink` is guarded by
`os.path.exists` and a `try/except: pass`, so a deletion never raises). -/
def stop (p : Player) (fs : List String) : Except PgError (Player × List String) :=
  match musicStop p.mixer with
  | .error e => .error e
  | .ok m =>
    let p2 := { p with mixer := m, is_playing := false, is_paused := false }
    match p2.temp_file with
    | some f => if f ∈ fs then .ok (p2, fs.erase f) else .ok (p2, fs)
    | none => .ok (p2, fs)

/-- `AudioPlayer.get_state` (pygame_player.py, lines 157-166). -/
def get_state (p : Player) : Except PgError PState :=
  (musicGetBusy p.mixer).map fun busy =>
    if !busy && p.is_playing then .ended
    else if p.is_paused then .paused
    else if p.is_playing then .playing
    else .stopped

/-- `AudioPlayer.is_stream_ready` (pygame_player.py, lines 210-212):
`self.current_media_info is not None`. -/
def is_stream_ready (p : Player) : Bool := p.current_media_info.isSome

/-- `AudioPlayer.wait_for_ready` (pygame_player.py, lines 214-216): no
polling and no waiting at all — it returns `is_stream_ready()` at once. -/
def wait_for_ready (p : Player) (_timeout : Nat) : Bool := is_stream_ready p

/-- `AudioPlayer.cleanup` (pygame_player.py, lines 218-221): `self.stop()`
then `pygame.mixer.quit()`; an error raised by `stop` propagates. -/
def cleanup (p : Player) (fs : List String) : Except PgError (Player × List String) :=
  (stop p fs).map fun pf => ({ pf.1 with mixer := mixerQuit pf.1.mixer }, pf.2)

end Pg

/-! ## Player controls (src/src/controls.py)

`PlayerControls` keeps `self.volume` (initialised to 70) and, once a mute
has happened, `self._saved_volume`; `getattr(self, '_saved_volume',
self.volume)` is the attribute when set and `self.volume` otherwise, so the
attribute is an `Option Int`.  `PlayerControls` drives whichever backend
was imported, so `toggle_mute` is transcribed once per backend. -/

/-- The `PlayerControls` fields `toggle_mute` touches (controls.py, lines
76-97, 150-160), over a backend player of type `σ`. -/
structure Controls (σ : Type) where
  player : σ
  volume : Int
  saved_volume : Option Int
deriving DecidableEq, Repr

/-- `PlayerControls.toggle_mute` (controls.py, lines 150-160) over the VLC
backend. -/
def toggle_mute_vlc (c : Controls Vlc.Player) : Controls Vlc.Player :=
  let current_vol := Vlc.get_volume c.player
  if current_vol > 0 then
    { c with saved_volume := some current_vol, player := Vlc.set_volume c.player 0 }
  else
    let restore_vol := c.saved_volume.getD c.volume
    { c with player := Vlc.set_volume c.player restore_vol }

/-- `PlayerControls.toggle_mute` (controls.py, lines 150-160) over the
pygame backend; a `pygame.error` raised by the backend propagates (the
method has no `try/except`). -/
def toggle_mute_pg (c : Controls Pg.Player) : Except Pg.PgError (Controls Pg.Player) :=
  match Pg.get_volume c.player with
  | .error e => .error e
  | .ok current_vol =>
    if current_vol > 0 then
      (Pg.set_volume c.player 0).map
        fun p => { c with saved_volume := some current_vol, player := p }
    else
      let restore_vol := c.saved_volume.getD c.volume
      (Pg.set_volume c.player restore_vol).map fun p => { c with player := p }

/-! ## Orchestrator (src/src/main.py)

`YouTubeAudioCLI.play_url` (lines 148-208) and the interactive loop of
`run` (lines 210-250), at the level of decisions and observable actions:
which `show_error` fires, whether the Monitor and Listener threads are
started, what `play_url` returns, and whether an iteration of `run`
reaches `ask_continue` or leaves the loop.

One fact of the source decides the tail of `play_url`: line 187 calls
`self.setup_controls()`, but `YouTubeAudioCLI` defines no method of that
name (its methods are `__init__`, `setup_keyboard_listener`,
`signal_handler`, `cleanup`, `monitor_playback`, `handle_keyboard_input`,
`play_url`, `run`), so the call raises `AttributeError`.  The surrounding
`except Exception` (lines 206-208) turns it into
`show_error("Unexpected error: ...")` and `return False` — before the
lines that would create and start the monitor thread (190-191) and the
input thread (194-195). -/

/-- Which `ui.show_error` call of `play_url` fired, if any. -/
inductive UiError
  | extractFailed
  | loadFailed
  | playFailed
  | readyTimeout
  | unexpected
deriving DecidableEq, Repr

/-- The inputs `play_url` branches on: the resolver's result and the
backend's answers to `load_stream`, `play` and `wait_for_ready`. -/
structure Env where
  extractResult : Option MediaInfo
  loadOk : Bool
  playOk : Bool
  readyOk : Bool
deriving DecidableEq, Repr

/-- What one call of `play_url` did. -/
structure Outcome where
  errorShown : Option UiError
  monitorStarted : Bool
  listenerStarted : Bool
  result : Bool
deriving DecidableEq, Repr

/-- `YouTubeAudioCLI.play_url` (main.py, lines 148-208). -/
def play_url (env : Env) : Outcome :=
  match env.extractResult with
  | none => ⟨some .extractFailed, false, false, false⟩
  | some _ =>
    if !env.loadOk then ⟨some .loadFailed, false, false, false⟩
    else if !env.playOk then ⟨some .playFailed, false, false, false⟩
    else if !env.readyOk then ⟨some .readyTimeout, false, false, false⟩
    else
      -- line 187: `self.setup_controls()` raises AttributeError; the
      -- `except Exception` handler shows "Unexpected error" and returns
      -- False with neither thread started.
      ⟨some .unexpected, false, false, false⟩

/-- ASCII `str.lower`, enough for the quit-token comparison of line 227. -/
def pyLowerChar (c : Char) : Char :=
  if 'A' ≤ c ∧ c ≤ 'Z' then Char.ofNat (c.toNat + 32) else c

/-- What one iteration of the `while self.running` loop of `run` (main.py,
lines 219-241) did. -/
structure IterResult where
  invalidShown : Bool
  askedContinue : Bool
  breaksLoop : Bool
deriving DecidableEq, Repr

/-- One iteration of the interactive loop of `run` (main.py, lines
219-241): read a URL (parameter `url`), re-prompt on empty input, leave on
a quit token, show an error and re-prompt on an invalid URL, otherwise run
`play_url` (its outcome is the parameter `session`); on success show the
separator and `ask_continue` (the user's answer is `contAnswer`), leaving
the loop when the answer is no. -/
def run_iteration (url : List Char) (session : Outcome) (contAnswer : Bool) :
    IterResult :=
  if url.isEmpty then ⟨false, false, false⟩
  else if (url.map pyLowerChar) ∈ ["quit".data, "exit".data, "q".data] then
    ⟨false, false, true⟩
  else if !(is_valid_youtube_url url) then ⟨true, false, false⟩
  else if session.result then
    if contAnswer then ⟨false, true, false⟩ else ⟨false, true, true⟩
  else ⟨false, false, false⟩

/-! ## Progress Monitor (src/src/main.py, lines 93-122) -/

/-- What a run of `monitor_playback` did: which announcement it printed and
the value of the shared `self.running` flag when it returned. -/
structure MonResult where
  announcedDone : Bool
  announcedError : Bool
  running : Bool
deriving DecidableEq, Repr

/-- The loop of `monitor_playback` over the trace of states its successive
`get_state` calls observe, with the shared `running` flag true at entry:
on `ended` print the completion message, clear `self.running` and break;
on `error` print the error message and break; otherwise (progress printing
elided) sleep and poll again.  `fuel` bounds the observation window; if it
runs out while the loop is still polling, the loop simply has not
terminated yet (`running` still true, nothing announced). -/
def monitor_go (st : Nat → PState) : Nat → Nat → MonResult
  | _, 0 => ⟨false, false, true⟩
  | k, fuel + 1 =>
    match st k with
    | .ended => ⟨true, false, false⟩
    | .error => ⟨false, true, true⟩
    | _ => monitor_go st (k + 1) fuel

/-- `YouTubeAudioCLI.monitor_playback` (main.py, lines 93-122). -/
def monitor_playback (st : Nat → PState) (fuel : Nat) : MonResult :=
  monitor_go st 0 fuel

/-! ## Sample values used by concrete scenarios and witnesses -/

/-- The spec's positive validity scenario URL. -/
def watchUrl : List Char := "https://www.youtube.com/watch?v=abc123".data

/-- The spec's negative validity scenario URL. -/
def vimeoUrl : List Char := "https://vimeo.com/123".data

/-- An embed-form URL (accepted by the code's first pattern). -/
def embedUrl : List Char := "https://www.youtube.com/embed/abc123".data

/-- A sample resolved stream descriptor. -/
def infoSample : MediaInfo :=
  ⟨some "http://cdn.example/a.m4a".data, "title".data, "uploader".data, 212, none⟩

/-- A pygame player as `__init__` plus a load left it: mixer initialised
with the music volume at 90/128 (which `get_volume` reports as 70), media
loaded, a temporary file on disk. -/
def pgSample : Pg.Player :=
  ⟨⟨true, 90, true⟩, some infoSample, true, false, some "tmp.mp3"⟩

/-- The filesystem matching `pgSample`. -/
def fsSample : List String := ["tmp.mp3"]

/-- A pygame player fresh out of `__init__`: mixer initialised at the
SDL_mixer default music volume (the maximum, 128 steps), nothing
loaded. -/
def pgFresh : Pg.Player := ⟨⟨true, 128, false⟩, none, false, false, none⟩

/-- `pgFresh` after one `cleanup()`: the mixer has been quit. -/
def pgQuit : Pg.Player := ⟨⟨false, 128, false⟩, none, false, false, none⟩

/-- A VLC player mid-playback. -/
def vlcSample : Vlc.Player := ⟨70, .playing, true⟩

/-- Boolean success of an `Except`. -/
def okB {ε α : Type} : Except ε α → Bool
  | .ok _ => true
  | .error _ => false

/-- What `Pg.stop` leaves of the player itself. -/
def pgStopped (r : Pg.Player) : Pg.Player :=
  { r with mixer := { r.mixer with busy := false },
           is_playing := false, is_paused := false }

/-- A state trace stuck in `opening`. -/
def stOpening : Nat → PState := fun _ => .opening

/-- The property `is_valid_youtube_url` actually decides, written out as
the two regex searches say it: one of the three literals of pattern 1
occurs as a substring, or pattern 2's `youtube.com/watch?` occurs followed
(with no newline between) by `v=`. -/
def MatchesSearch (l : List Char) : Prop :=
  (∃ s t, l = s ++ "youtube.com/watch?v=".data ++ t)
  ∨ (∃ s t, l = s ++ "youtu.be/".data ++ t)
  ∨ (∃ s t, l = s ++ "youtube.com/embed/".data ++ t)
  ∨ (∃ s u w2, l = s ++ watchQ ++ (u ++ 'v' :: '=' :: w2) ∧ '\n' ∉ u)

/-! ## Claims -/

/-- C10: for every integer `ms`, `format_time ms` is `"00:00"` when
`ms < 0` and otherwise the zero-padded `MM:SS` string with minutes
`ms / 60000` and seconds `(ms / 1000) % 60` (so the seconds field is below
60), and the three source copies of the function (VLC backend, pygame
backend, UI) compute the same function. -/
theorem format_time_spec (ms : Int) :
    Vlc.format_time ms = Pg.format_time ms
    ∧ Pg.format_time ms = Ui.format_time ms
    ∧ Ui.format_time ms =
        (if ms < 0 then "00:00"
         else pad2 (ms.toNat / 60000) ++ ":" ++ pad2 (ms.toNat / 1000 % 60))
    ∧ ms.toNat / 1000 % 60 < 60 := by
  refine ⟨rfl, rfl, ?_, Nat.mod_lt _ (by norm_num)⟩
  unfold Ui.format_time
  split
  · rfl
  · show pad2 (ms.toNat / 1000 / 60) ++ ":" ++ pad2 (ms.toNat / 1000 % 60) = _
    rw [Nat.div_div_eq_div_mul]

/-- C7: when the resolver succeeded but the backend's `load_stream` returns
false, `play_url` shows the load error and returns false without starting
the Monitor or Listener threads; likewise for a `play()` failure and for a
`wait_for_ready` timeout; and an iteration of `run` whose `play_url`
returned false neither asks "play another?" nor leaves the loop — it
returns to the URL prompt. -/
theorem load_failure_returns_to_prompting (i : MediaInfo) (b1 b2 : Bool)
    (m : Option UiError) (ms ls ca : Bool) :
    play_url ⟨some i, false, b1, b2⟩ = ⟨some .loadFailed, false, false, false⟩
    ∧ play_url ⟨some i, true, false, b2⟩ = ⟨some .playFailed, false, false, false⟩
    ∧ play_url ⟨some i, true, true, false⟩ = ⟨some .readyTimeout, false, false, false⟩
    ∧ run_iteration watchUrl ⟨m, ms, ls, false⟩ ca = ⟨false, false, false⟩ :=
  ⟨rfl, rfl, rfl, rfl⟩

/-- C8: every failure inside `extract_audio_info` (invalid URL, which
raises `ValueError` inside the `try`, or any exception out of
`ydl.extract_info`) is caught and surfaces as `None`: the `Option` result
is `some` exactly when the try-body succeeded; the caller shows the
extraction error, returns false, and starts neither thread on a `None`
result; and the surrounding `run` iteration then returns to the prompt so
the user can retry. -/
theorem extraction_failure_surfaces_none (url : List Char)
    (ydl : Except (List Char) RawInfo) (b1 b2 b3 : Bool)
    (m : Option UiError) (ms ls ca : Bool) :
    (extract_audio_info url ydl).isSome = okB (extract_body url ydl)
    ∧ play_url ⟨none, b1, b2, b3⟩ = ⟨some .extractFailed, false, false, false⟩
    ∧ run_iteration watchUrl ⟨m, ms, ls, false⟩ ca = ⟨false, false, false⟩ := by
  refine ⟨?_, rfl, rfl⟩
  unfold extract_audio_info okB
  cases extract_body url ydl <;> rfl

/-- C4 (code bug): in a session where every preparatory step succeeds and
the backend state reaches `ended`, the claim expects the Monitor to
announce completion and `run` to reach `ask_continue`.  The monitor loop
itself would indeed announce completion, clear `running` and terminate on
an `ended` state (first conjunct); but `play_url` raises `AttributeError`
at `self.setup_controls()` (main.py line 187 — the class defines no such
method) before the monitor thread is started, so it shows "Unexpected
error" and returns false with no Monitor running (second conjunct), and
the `run` iteration therefore never reaches `ask_continue` (third
conjunct). -/
theorem ended_session_skips_continue_prompt :
    monitor_playback (fun k => if k < 2 then .playing else .ended) 5 = ⟨true, false, false⟩
    ∧ play_url ⟨some infoSample, true, true, true⟩ = ⟨some .unexpected, false, false, false⟩
    ∧ (run_iteration watchUrl (play_url ⟨some infoSample, true, true, true⟩)
        true).askedContinue = false :=
  ⟨rfl, rfl, rfl⟩

/-- C9 (code bug): the first `cleanup()` on the pygame backend stops
playback and quits the mixer, but a second consecutive `cleanup()` raises
`pygame.error`: `cleanup` calls `self.stop()`, whose
`pygame.mixer.music.stop()` requires an initialised mixer, which the first
call's `pygame.mixer.quit()` destroyed.  (The VLC backend's second
`cleanup()` likewise calls `stop()`/`release()` on already-released engine
handles.) -/
theorem cleanup_second_call_raises :
    Pg.cleanup pgFresh [] = .ok (pgQuit, [])
    ∧ pgQuit.is_playing = false
    ∧ pgQuit.mixer.initialized = false
    ∧ Pg.cleanup pgQuit [] = .error .mixerNotInitialized :=
  ⟨rfl, rfl, rfl, rfl⟩

/-! Helper lemmas for the pygame backend. -/

lemma pg_stop_eq (r : Pg.Player) (g : List String)
    (hr : r.mixer.initialized = true) :
    Pg.stop r g = .ok (pgStopped r,
      match r.temp_file with
      | some f => if f ∈ g then g.erase f else g
      | none => g) := by
  rcases r with ⟨⟨i, vol, b⟩, cmi, ip, ipd, tf⟩
  obtain rfl : i = true := hr
  cases tf with
  | none => rfl
  | some f =>
    by_cases hf : f ∈ g <;>
      simp [Pg.stop, Pg.musicStop, pgStopped, hf]

lemma pg_stopped_state (r : Pg.Player) (hr : r.mixer.initialized = true) :
    Pg.get_state (pgStopped r) = .ok .stopped := by
  rcases r with ⟨⟨i, vol, b⟩, cmi, ip, ipd, tf⟩
  obtain rfl : i = true := hr
  rfl

/-- For a nonnegative request, `set_volume v` stores the quantised volume
`min (int(v * 128 / 100)) 128` steps. -/
lemma pg_set_volume_nonneg (r : Pg.Player) (v : Int)
    (hr : r.mixer.initialized = true) (h0 : 0 ≤ v) :
    Pg.set_volume r v = .ok { r with mixer := { r.mixer with
      musicVolume128 := (min ((v * 128) / 100) 128).toNat } } := by
  have he : (v * 128).tdiv 100 = (v * 128) / 100 :=
    Int.tdiv_eq_ediv (by positivity) (by norm_num)
  rcases r with ⟨⟨i, vol, b⟩, cmi, ip, ipd, tf⟩
  obtain rfl : i = true := hr
  unfold Pg.set_volume Pg.musicSetVolumeFrom
  rw [he]
  rw [if_pos rfl, if_neg (by omega : ¬ (v * 128) / 100 < 0)]
  rfl

/-- A negative request is ignored by Mix_VolumeMusic: the player is
unchanged. -/
lemma pg_set_volume_neg (r : Pg.Player) (v : Int)
    (hr : r.mixer.initialized = true) (hneg : v < 0) :
    Pg.set_volume r v = .ok r := by
  have h2 : v * 128 = -((-v) * 128) := by ring
  have h1 : ((-v) * 128).tdiv 100 = ((-v) * 128) / 100 :=
    Int.tdiv_eq_ediv (by nlinarith) (by norm_num)
  have hq : (v * 128).tdiv 100 < 0 := by
    rw [h2, Int.neg_tdiv, h1]
    omega
  rcases r with ⟨⟨i, vol, b⟩, cmi, ip, ipd, tf⟩
  obtain rfl : i = true := hr
  unfold Pg.set_volume Pg.musicSetVolumeFrom
  rw [if_pos rfl, if_pos hq]
  rfl

/-- Reading the volume back from a store of `m` steps reports
`m * 100 / 128`. -/
lemma pg_get_volume_eq (r : Pg.Player) (hr : r.mixer.initialized = true) :
    Pg.get_volume r = .ok ((r.mixer.musicVolume128 * 100 / 128 : Nat) : Int) := by
  unfold Pg.get_volume Pg.musicGetVolume
  rw [if_pos hr]
  rfl

/-- The double rounding of the quantised volume path: for a request in
`[0, 100]`, the value read back is at most the request and misses it by
less than one step. -/
lemma quantize_bounds (v : Int) (h0 : 0 ≤ v) (h100 : v ≤ 100) :
    v - 1 ≤ (((min ((v * 128) / 100) 128).toNat * 100 / 128 : Nat) : Int)
    ∧ (((min ((v * 128) / 100) 128).toNat * 100 / 128 : Nat) : Int) ≤ v := by
  omega

/-- C5: `stop()` then `get_state()` yields `stopped` on both backends, and
`stop()` is idempotent: a second consecutive call raises no error and the
state is still `stopped` (VLC part: the second stop is the identity on the
stopped player). -/
theorem stop_then_state_stopped (q : Vlc.Player) (p : Pg.Player)
    (fs : List String) (hinit : p.mixer.initialized = true) :
    Vlc.get_state (Vlc.stop q) = .stopped
    ∧ Vlc.stop (Vlc.stop q) = Vlc.stop q
    ∧ ((Pg.stop p fs).bind fun pf => Pg.get_state pf.1) = .ok .stopped
    ∧ (((Pg.stop p fs).bind fun pf => Pg.stop pf.1 pf.2).bind
        fun pf => Pg.get_state pf.1) = .ok .stopped := by
  refine ⟨rfl, rfl, ?_, ?_⟩
  · rw [pg_stop_eq p fs hinit]
    exact pg_stopped_state p hinit
  · rw [pg_stop_eq p fs hinit]
    show ((Pg.stop (pgStopped p) _).bind fun pf => Pg.get_state pf.1) = .ok .stopped
    rw [pg_stop_eq (pgStopped p) _ hinit]
    exact pg_stopped_state (pgStopped p) hinit

/-- C5 witness: the theorem at a loaded pygame player with a temporary
file on disk and a playing VLC player. -/
theorem stop_then_state_stopped_witness :
    pgSample.mixer.initialized = true
    ∧ (Vlc.get_state (Vlc.stop vlcSample) = .stopped
      ∧ Vlc.stop (Vlc.stop vlcSample) = Vlc.stop vlcSample
      ∧ ((Pg.stop pgSample fsSample).bind fun pf => Pg.get_state pf.1) = .ok .stopped
      ∧ (((Pg.stop pgSample fsSample).bind fun pf => Pg.stop pf.1 pf.2).bind
          fun pf => Pg.get_state pf.1) = .ok .stopped) :=
  ⟨rfl, stop_then_state_stopped vlcSample pgSample fsSample rfl⟩

/-- C1 counterexample: on the pygame backend, `set_volume(57)` then
`get_volume()` answers 56, not `clamp(57, 0, 100) = 57`: the mixer
quantises to 1/128 steps (`int(0.57 * 128) = 72`, and
`int(72 / 128 * 100) = 56`), so the round trip of the original claim
fails on the real program. -/
theorem set_volume_57_reads_back_56 :
    (Pg.set_volume pgFresh 57).bind Pg.get_volume = .ok 56
    ∧ ¬ ((56 : Int) = max 0 (min 100 57)) :=
  ⟨rfl, by decide⟩

/-- C1 (amended): `set_volume(v)` then `get_volume()` returns
`clamp(v, 0, 100)` exactly on the VLC backend (the wrapper clamps in
Python and the engine stores the integer).  On the pygame backend the
volume is quantised to 1/128 steps with no Python-side clamp: a request
in `[0, 100]` reads back within one point below the request (in
`[v-1, v]`, e.g. 56 for 57), a request above 100 reads back exactly 100
(the mixer caps at 128 steps), and a negative request leaves the volume
unchanged rather than clamping to 0. -/
theorem set_then_get_volume_quantized (p : Vlc.Player) (q : Pg.Player) (v : Int)
    (hinit : q.mixer.initialized = true) :
    Vlc.get_volume (Vlc.set_volume p v) = max 0 (min 100 v)
    ∧ (0 ≤ v → v ≤ 100 →
        (Pg.set_volume q v).bind Pg.get_volume =
          .ok (((min ((v * 128) / 100) 128).toNat * 100 / 128 : Nat) : Int)
        ∧ v - 1 ≤ (((min ((v * 128) / 100) 128).toNat * 100 / 128 : Nat) : Int)
        ∧ (((min ((v * 128) / 100) 128).toNat * 100 / 128 : Nat) : Int) ≤ v)
    ∧ (100 < v → (Pg.set_volume q v).bind Pg.get_volume = .ok 100)
    ∧ (v < 0 → Pg.set_volume q v = .ok q) := by
  refine ⟨rfl, ?_, ?_, ?_⟩
  · intro h0 h100
    rw [pg_set_volume_nonneg q v hinit h0]
    refine ⟨?_, (quantize_bounds v h0 h100).1, (quantize_bounds v h0 h100).2⟩
    show Pg.get_volume _ = _
    rw [pg_get_volume_eq _ (by exact hinit)]
  · intro hgt
    rw [pg_set_volume_nonneg q v hinit (by omega)]
    show Pg.get_volume _ = _
    rw [pg_get_volume_eq _ (by exact hinit)]
    have hm : min ((v * 128) / 100) 128 = 128 := by omega
    rw [show ({ q with mixer := { q.mixer with
        musicVolume128 := (min ((v * 128) / 100) 128).toNat } } : Pg.Player).mixer.musicVolume128
      = (min ((v * 128) / 100) 128).toNat from rfl, hm]
    norm_num
  · intro hneg
    exact pg_set_volume_neg q v hinit hneg

/-- C1 witness: the amended theorem at `v = 57` on concrete players (the
pygame read-back is 56, inside `[56, 57]`). -/
theorem set_then_get_volume_quantized_witness :
    pgSample.mixer.initialized = true
    ∧ (Vlc.get_volume (Vlc.set_volume vlcSample 57) = max 0 (min 100 57)
      ∧ ((0 : Int) ≤ 57 → (57 : Int) ≤ 100 →
          (Pg.set_volume pgSample 57).bind Pg.get_volume =
            .ok (((min (((57 : Int) * 128) / 100) 128).toNat * 100 / 128 : Nat) : Int)
          ∧ (57 : Int) - 1 ≤ (((min (((57 : Int) * 128) / 100) 128).toNat * 100 / 128 : Nat) : Int)
          ∧ (((min (((57 : Int) * 128) / 100) 128).toNat * 100 / 128 : Nat) : Int) ≤ 57)
      ∧ ((100 : Int) < 57 → (Pg.set_volume pgSample 57).bind Pg.get_volume = .ok 100)
      ∧ ((57 : Int) < 0 → Pg.set_volume pgSample 57 = .ok pgSample)) :=
  ⟨rfl, set_then_get_volume_quantized vlcSample pgSample 57 rfl⟩

/-! Helper lemmas for the VLC waiting loop. -/

lemma wait_go_stuck (ready : Nat → Bool) (h : ∀ k, ready k = false) :
    ∀ (fuel k : Nat), Vlc.wait_go ready k fuel = (false, k + fuel) := by
  intro fuel
  induction fuel with
  | zero => intro k; simp [Vlc.wait_go]
  | succ n ih =>
    intro k
    simp only [Vlc.wait_go, h k, Bool.false_eq_true, if_false, ih (k + 1),
      Prod.mk.injEq, true_and]
    omega

lemma wait_go_sleeps_le (ready : Nat → Bool) :
    ∀ (fuel k : Nat), (Vlc.wait_go ready k fuel).2 ≤ k + fuel := by
  intro fuel
  induction fuel with
  | zero => intro k; simp [Vlc.wait_go]
  | succ n ih =>
    intro k
    by_cases h : ready k
    · simp only [Vlc.wait_go, h, if_true]
      omega
    · simp only [Vlc.wait_go, h, Bool.false_eq_true, if_false]
      have := ih (k + 1)
      omega

/-- C3: `wait_for_ready` always returns within its budget.  VLC backend:
when the observed state stays in `{idle, opening, error}`, the poll loop
returns `false` after exactly `10 * timeout` sleeps of 0.1 s, i.e. after
`timeout` seconds; on any trace the time spent (sleeps / 10, in seconds)
is at most `timeout + 0.1`, one poll interval past the budget.  pygame
backend: `wait_for_ready` returns `is_stream_ready()` immediately, with no
waiting at all; its `get_state` can moreover never report `idle`,
`opening` or `error`, so the stuck-state premise is vacuous there. -/
theorem wait_for_ready_bounded (st st2 : Nat → PState) (timeout : Nat)
    (q : Pg.Player)
    (hstuck : ∀ k, st k = .idle ∨ st k = .opening ∨ st k = .error) :
    Vlc.wait_for_ready st timeout = (false, 10 * timeout)
    ∧ ((Vlc.wait_for_ready st2 timeout).2 : ℚ) / 10 ≤ (timeout : ℚ) + 1 / 10
    ∧ Pg.wait_for_ready q timeout = Pg.is_stream_ready q
    ∧ (∀ s : PState, Pg.get_state q = .ok s →
        s ≠ .idle ∧ s ≠ .opening ∧ s ≠ .error) := by
  have hready : ∀ k, Vlc.readyState (st k) = false := by
    intro k
    rcases hstuck k with h | h | h <;> simp [Vlc.readyState, h]
  refine ⟨?_, ?_, rfl, ?_⟩
  · unfold Vlc.wait_for_ready
    rw [wait_go_stuck _ hready]
    simp
  · have hle : ((Vlc.wait_for_ready st2 timeout).2 : ℚ) ≤ 10 * timeout := by
      have h := wait_go_sleeps_le (fun k => Vlc.readyState (st2 k)) (10 * timeout) 0
      have h2 : (Vlc.wait_for_ready st2 timeout).2 ≤ 10 * timeout := by
        simpa [Vlc.wait_for_ready] using h
      exact_mod_cast h2
    rw [div_le_iff₀ (by norm_num : (0 : ℚ) < 10)]
    linarith
  · intro s hs
    unfold Pg.get_state Pg.musicGetBusy at hs
    by_cases hq : q.mixer.initialized = true
    · rw [if_pos hq] at hs
      simp only [Except.map, Except.ok.injEq] at hs
      subst hs
      repeat' split
      all_goals simp
    · rw [if_neg hq] at hs
      exact Except.noConfusion hs

/-- C3 witness: a trace stuck in `opening` with a one-second timeout and a
freshly initialised pygame player. -/
theorem wait_for_ready_bounded_witness :
    (∀ k, stOpening k = .idle ∨ stOpening k = .opening ∨ stOpening k = .error)
    ∧ (Vlc.wait_for_ready stOpening 1 = (false, 10 * 1)
      ∧ ((Vlc.wait_for_ready stOpening 1).2 : ℚ) / 10 ≤ ((1 : Nat) : ℚ) + 1 / 10
      ∧ Pg.wait_for_ready pgFresh 1 = Pg.is_stream_ready pgFresh
      ∧ (∀ s : PState, Pg.get_state pgFresh = .ok s →
          s ≠ .idle ∧ s ≠ .opening ∧ s ≠ .error)) :=
  ⟨fun _ => Or.inr (Or.inl rfl),
   wait_for_ready_bounded stOpening stOpening 1 pgFresh
     (fun _ => Or.inr (Or.inl rfl))⟩

/-- C6 counterexample: on the pygame backend with the mixer at 90/128
(reported volume 70), `toggle_mute` mutes to 0, but the second
`toggle_mute` restores only 69: the remembered value 70 re-quantises to
`int(0.70 * 128) = 89` steps, which reads back as
`int(89 / 128 * 100) = 69`, so the exact-restoration claim fails on the
real program. -/
theorem toggle_mute_70_reads_back_69 :
    Pg.get_volume pgSample = .ok 70
    ∧ ((toggle_mute_pg ⟨pgSample, 70, none⟩).bind
        fun d1 => Pg.get_volume d1.player) = .ok 0
    ∧ (((toggle_mute_pg ⟨pgSample, 70, none⟩).bind toggle_mute_pg).bind
        fun d2 => Pg.get_volume d2.player) = .ok 69
    ∧ ¬ ((69 : Int) = 70) :=
  ⟨rfl, rfl, rfl, by decide⟩

/-- C6 (amended): on the VLC backend, `toggle_mute` then `toggle_mute`
restores exactly the pre-mute volume `v`.  On the pygame backend, the
first `toggle_mute` mutes the volume to 0 and remembers the reported
pre-mute value `w`, and the second sets the volume back to `w`, but the
1/128-step quantisation means the volume then reported lies within one
point below `w` (in `[w-1, w]`); it can be strictly below (69 for 70). -/
theorem toggle_mute_restores_within_one
    (c : Controls Vlc.Player) (d : Controls Pg.Player) (v w : Int)
    (hv : Vlc.get_volume c.player = v) (hv0 : 0 < v) (hv100 : v ≤ 100)
    (hinit : d.player.mixer.initialized = true)
    (hm : d.player.mixer.musicVolume128 ≤ 128)
    (hw : Pg.get_volume d.player = .ok w) (hw0 : 0 < w) :
    Vlc.get_volume (toggle_mute_vlc c).player = 0
    ∧ Vlc.get_volume (toggle_mute_vlc (toggle_mute_vlc c)).player = v
    ∧ ((toggle_mute_pg d).bind fun d1 => Pg.get_volume d1.player) = .ok 0
    ∧ ∃ r, (((toggle_mute_pg d).bind toggle_mute_pg).bind
        fun d2 => Pg.get_volume d2.player) = .ok r ∧ w - 1 ≤ r ∧ r ≤ w := by
  obtain ⟨⟨cev, ces, cip⟩, cvol, csaved⟩ := c
  obtain ⟨⟨⟨di, m128, db⟩, dcmi, dip, dipd, dtf⟩, dvol, dsaved⟩ := d
  obtain rfl : di = true := hinit
  obtain rfl : cev = v := hv
  replace hm : m128 ≤ 128 := hm
  rw [pg_get_volume_eq ⟨⟨true, m128, db⟩, dcmi, dip, dipd, dtf⟩ rfl,
    Except.ok.injEq] at hw
  dsimp only at hw
  have hw100 : w ≤ 100 := by omega
  have hset0 : Pg.set_volume (⟨⟨true, m128, db⟩, dcmi, dip, dipd, dtf⟩ : Pg.Player) 0 =
      .ok ⟨⟨true, 0, db⟩, dcmi, dip, dipd, dtf⟩ := by
    rw [pg_set_volume_nonneg _ 0 rfl (le_refl 0)]
    norm_num
  have ht1 : toggle_mute_pg ⟨⟨⟨true, m128, db⟩, dcmi, dip, dipd, dtf⟩, dvol, dsaved⟩ =
      .ok ⟨⟨⟨true, 0, db⟩, dcmi, dip, dipd, dtf⟩, dvol, some w⟩ := by
    unfold toggle_mute_pg
    rw [pg_get_volume_eq ⟨⟨true, m128, db⟩, dcmi, dip, dipd, dtf⟩ rfl]
    dsimp only
    rw [hw, if_pos hw0, hset0]
    rfl
  refine ⟨?_, ?_, ?_, ?_⟩
  · unfold toggle_mute_vlc
    dsimp [Vlc.get_volume, Vlc.set_volume]
    rw [if_pos hv0]
    dsimp
    omega
  · unfold toggle_mute_vlc
    dsimp [Vlc.get_volume, Vlc.set_volume]
    rw [if_pos hv0]
    dsimp [Option.getD]
    omega
  · rw [ht1]
    show Pg.get_volume (⟨⟨true, 0, db⟩, dcmi, dip, dipd, dtf⟩ : Pg.Player) = _
    rw [pg_get_volume_eq ⟨⟨true, 0, db⟩, dcmi, dip, dipd, dtf⟩ rfl]
    dsimp only
    norm_num
  · rw [ht1]
    refine ⟨(((min ((w * 128) / 100) 128).toNat * 100 / 128 : Nat) : Int), ?_,
      (quantize_bounds w (by omega) hw100).1, (quantize_bounds w (by omega) hw100).2⟩
    show (toggle_mute_pg ⟨⟨⟨true, 0, db⟩, dcmi, dip, dipd, dtf⟩, dvol, some w⟩).bind
      (fun d2 => Pg.get_volume d2.player) = _
    unfold toggle_mute_pg
    rw [pg_get_volume_eq ⟨⟨true, 0, db⟩, dcmi, dip, dipd, dtf⟩ rfl]
    dsimp only
    rw [show ((0 * 100 / 128 : Nat) : Int) = 0 from rfl]
    rw [if_neg (by omega : ¬ (0 : Int) > 0)]
    dsimp only [Option.getD]
    rw [pg_set_volume_nonneg ⟨⟨true, 0, db⟩, dcmi, dip, dipd, dtf⟩ w rfl (by omega)]
    dsimp only [Except.map, Except.bind]
    show Pg.get_volume
      (⟨⟨true, (min ((w * 128) / 100) 128).toNat, db⟩, dcmi, dip, dipd, dtf⟩ : Pg.Player) = _
    rw [pg_get_volume_eq
      ⟨⟨true, (min ((w * 128) / 100) 128).toNat, db⟩, dcmi, dip, dipd, dtf⟩ rfl]

/-- C6 witness: the amended theorem at `v = 70` (VLC) and `w = 70`
(pygame, mixer store 90/128); the restored pygame volume (69) lies within
`[69, 70]`. -/
theorem toggle_mute_restores_within_one_witness :
    Pg.get_volume (⟨pgSample, 70, none⟩ : Controls Pg.Player).player = .ok 70
    ∧ (Vlc.get_volume (toggle_mute_vlc ⟨vlcSample, 70, none⟩).player = 0
      ∧ Vlc.get_volume (toggle_mute_vlc (toggle_mute_vlc ⟨vlcSample, 70, none⟩)).player = 70
      ∧ ((toggle_mute_pg ⟨pgSample, 70, none⟩).bind
          fun d1 => Pg.get_volume d1.player) = .ok 0
      ∧ ∃ r, (((toggle_mute_pg ⟨pgSample, 70, none⟩).bind toggle_mute_pg).bind
          fun d2 => Pg.get_volume d2.player) = .ok r ∧ (70 : Int) - 1 ≤ r ∧ r ≤ 70) :=
  ⟨rfl,
   toggle_mute_restores_within_one ⟨vlcSample, 70, none⟩ ⟨pgSample, 70, none⟩ 70 70
     rfl (by decide) (by decide) rfl (by decide) rfl (by decide)⟩

/-! Characterisations of the search primitives, for C2. -/

lemma matchAt_iff (n : List Char) : ∀ l, matchAt n l = true ↔ ∃ t, l = n ++ t := by
  induction n with
  | nil => intro l; simp [matchAt]
  | cons a as ih =>
    intro l
    cases l with
    | nil => simp [matchAt]
    | cons b bs =>
      rw [show matchAt (a :: as) (b :: bs) = ((a == b) && matchAt as bs) from rfl]
      simp only [Bool.and_eq_true, beq_iff_eq, ih bs, List.cons_append,
        List.cons.injEq]
      constructor
      · rintro ⟨rfl, t, rfl⟩
        exact ⟨t, rfl, rfl⟩
      · rintro ⟨t, rfl, rfl⟩
        exact ⟨rfl, t, rfl⟩

lemma hasSub_iff (n : List Char) : ∀ l, hasSub n l = true ↔ ∃ s t, l = s ++ n ++ t := by
  intro l
  induction l with
  | nil =>
    rw [show hasSub n [] = matchAt n [] from rfl]
    rw [matchAt_iff]
    constructor
    · rintro ⟨t, ht⟩
      exact ⟨[], t, by simpa using ht⟩
    · rintro ⟨s, t, ht⟩
      refine ⟨t, ?_⟩
      rcases List.append_eq_nil.mp ht.symm with ⟨h1, h2⟩
      rcases List.append_eq_nil.mp h1 with ⟨h3, h4⟩
      simp [h2, h4]
  | cons c rest ih =>
    rw [show hasSub n (c :: rest) = (matchAt n (c :: rest) || hasSub n rest) from rfl]
    simp only [Bool.or_eq_true, matchAt_iff, ih]
    constructor
    · rintro (⟨t, ht⟩ | ⟨s, t, ht⟩)
      · exact ⟨[], t, by simpa using ht⟩
      · exact ⟨c :: s, t, by simp [ht]⟩
    · rintro ⟨s, t, ht⟩
      cases s with
      | nil => exact Or.inl ⟨t, by simpa using ht⟩
      | cons c2 s2 =>
        simp only [List.cons_append, List.cons.injEq, List.append_assoc] at ht
        exact Or.inr ⟨s2, t, by simp [ht.2]⟩

lemma seekVEq_iff : ∀ l, seekVEq l = true ↔
    ∃ s t, l = s ++ 'v' :: '=' :: t ∧ '\n' ∉ s := by
  intro l
  induction l with
  | nil => simp [seekVEq]
  | cons c rest ih =>
    rw [show seekVEq (c :: rest) =
      ((c == 'v' && matchAt "=".data rest) || (!(c == '\n') && seekVEq rest)) from rfl]
    simp only [Bool.or_eq_true, Bool.and_eq_true, beq_iff_eq,
      Bool.not_eq_eq_eq_not, Bool.not_true, matchAt_iff, ih]
    constructor
    · rintro (⟨rfl, t, rfl⟩ | ⟨hne, s, t, rfl, hs⟩)
      · exact ⟨[], t, rfl, by simp⟩
      · refine ⟨c :: s, t, rfl, ?_⟩
        have hcn : c ≠ '\n' := by
          intro h
          rw [h] at hne
          simp at hne
        simp [hs, hcn]
        intro h
        exact hcn h.symm
    · rintro ⟨s, t, hl, hs⟩
      cases s with
      | nil =>
        left
        simp only [List.nil_append, List.cons.injEq] at hl
        exact ⟨hl.1, t, hl.2⟩
      | cons c2 s2 =>
        right
        simp only [List.cons_append, List.cons.injEq] at hl
        simp only [List.mem_cons, not_or] at hs
        have hcn : (c == '\n') = false := by
          rw [← hl.1] at hs
          simpa using (Ne.symm hs.1)
        refine ⟨by simp [hcn], s2, t, hl.2, hs.2⟩

lemma searchWatchV_iff : ∀ l, searchWatchV l = true ↔
    ∃ s t, l = s ++ watchQ ++ t ∧ seekVEq t = true := by
  intro l
  induction l with
  | nil =>
    constructor
    · intro h
      exact absurd h (by simp [searchWatchV])
    · rintro ⟨s, t, hl, ht⟩
      have hq : watchQ = [] := by
        rcases List.append_eq_nil.mp hl.symm with ⟨h1, h2⟩
        exact (List.append_eq_nil.mp h1).2
      exact absurd hq (by decide)
  | cons c rest ih =>
    rw [show searchWatchV (c :: rest) =
      ((matchAt watchQ (c :: rest) && seekVEq ((c :: rest).drop watchQ.length))
        || searchWatchV rest) from rfl]
    simp only [Bool.or_eq_true, Bool.and_eq_true, ih]
    constructor
    · rintro (⟨hm, hseek⟩ | ⟨s, t, hl, ht⟩)
      · obtain ⟨t, ht⟩ := (matchAt_iff watchQ (c :: rest)).1 hm
        refine ⟨[], t, by simpa using ht, ?_⟩
        rw [ht, List.drop_left] at hseek
        exact hseek
      · exact ⟨c :: s, t, by simp [hl], ht⟩
    · rintro ⟨s, t, hl, ht⟩
      cases s with
      | nil =>
        left
        simp only [List.nil_append] at hl
        refine ⟨(matchAt_iff _ _).2 ⟨t, hl⟩, ?_⟩
        rw [hl, List.drop_left]
        exact ht
      | cons c2 s2 =>
        right
        simp only [List.cons_append, List.cons.injEq, List.append_assoc] at hl
        exact ⟨s2, t, by simp [hl.2], ht⟩

/-- C2 (amended): `is_valid_youtube_url` returns true exactly for the
strings `re.search` accepts: those containing `youtube.com/watch?v=`,
`youtu.be/` or `youtube.com/embed/` as a substring, or containing
`youtube.com/watch?` followed — with no intervening newline — by `v=`;
in particular it is true for the spec's watch-page scenario URL and false
for the vimeo scenario URL. -/
theorem url_validity_characterization (l : List Char) :
    (is_valid_youtube_url l = true ↔ MatchesSearch l)
    ∧ is_valid_youtube_url watchUrl = true
    ∧ is_valid_youtube_url vimeoUrl = false := by
  refine ⟨?_, by decide, by decide⟩
  unfold is_valid_youtube_url MatchesSearch
  simp only [Bool.or_eq_true, hasSub_iff, searchWatchV_iff, seekVEq_iff]
  constructor
  · rintro (((h | h) | h) | ⟨s, t, rfl, u, w2, rfl, hu⟩)
    · exact Or.inl h
    · exact Or.inr (Or.inl h)
    · exact Or.inr (Or.inr (Or.inl h))
    · exact Or.inr (Or.inr (Or.inr ⟨s, u, w2, rfl, hu⟩))
  · rintro (h | h | h | ⟨s, u, w2, rfl, hu⟩)
    · exact Or.inl (Or.inl (Or.inl h))
    · exact Or.inl (Or.inl (Or.inr h))
    · exact Or.inl (Or.inr h)
    · exact Or.inr ⟨s, u ++ 'v' :: '=' :: w2, rfl, u, w2, rfl, hu⟩

/-- C2 counterexample: the embed-form URL is accepted by the code's
validity check although it is neither of the spec's two accepted forms
(canonical watch-page form, short-link form). -/
theorem url_validity_embed_counterexample :
    is_valid_youtube_url embedUrl = true
    ∧ specCanonicalWatchForm embedUrl = false
    ∧ specShortLinkForm embedUrl = false := by
  refine ⟨by decide, by decide, by decide⟩

end YtAudio
